import Mathlib

/-!
Verification development for the FastAPI todos application
(Yush1nk1m/Study_FastAPI, directory FastAPI_Basic/todos/src).

The Python sources are shallowly embedded: the in-memory dict store of
main.py becomes an insertion-ordered association list, the SQLAlchemy
repository becomes explicit state passing over a row list with an
auto-increment counter, JWT encoding/decoding becomes a signed token
structure over Nat timestamps, and Python exceptions become explicit
result constructors (HTTPException vs. an uncaught exception that the
framework turns into a generic 500).
-/

namespace Todos

/-- A todo record, as stored both by the dict in main.py
(keys id, content, is_done) and by the ToDo ORM entity in
database/orm.py (columns id, content, is_done). -/
structure ToDoItem where
  id : Nat
  content : String
  is_done : Bool
deriving DecidableEq, Repr

/-- ToDo.done from database/orm.py: sets is_done to True and returns self. -/
def ToDoItem.done (t : ToDoItem) : ToDoItem := { t with is_done := true }

/-- ToDo.undone from database/orm.py: sets is_done to False and returns self. -/
def ToDoItem.undone (t : ToDoItem) : ToDoItem := { t with is_done := false }

/-! ## main.py: the dict-backed draft API

todo_data is a Python dict keyed by id; Python dicts preserve insertion
order, assignment to an existing key updates in place, pop removes. -/

/-- Python dict assignment todo_data[id] = item: replaces in place when the
key exists, else appends at the end (insertion order preserved). -/
def dictSet (store : List ToDoItem) (item : ToDoItem) : List ToDoItem :=
  if store.any (fun t => t.id == item.id) then
    store.map (fun t => if t.id == item.id then item else t)
  else
    store ++ [item]

/-- Python todo_data.get(id): the value at the key, if present. -/
def dictGet (store : List ToDoItem) (id : Nat) : Option ToDoItem :=
  store.find? (fun t => t.id == id)

/-- Python todo_data.pop(id, None): the removed value (if any) and the
remaining store. -/
def dictPop (store : List ToDoItem) (id : Nat) : Option ToDoItem × List ToDoItem :=
  (store.find? (fun t => t.id == id), store.filter (fun t => t.id != id))

/-- Outcome of a handler: a status code with a body, or an HTTPException
carrying a status code and detail string. -/
inductive HResult (α : Type) where
  | ok : Nat → α → HResult α
  | httpError : Nat → String → HResult α
deriving DecidableEq, Repr

/-- Python truthiness of the optional order query string: None and the
empty string are falsy. -/
def strTruthy : Option String → Bool
  | none => false
  | some s => s ≠ ""

/-- get_todos_handler from main.py: returns the stored todos; reversed
when order is truthy and equals DESC, else in insertion order. -/
def main.get_todos_handler (order : Option String) (store : List ToDoItem) :
    List ToDoItem :=
  let ret := store
  if strTruthy order && (order == some "DESC") then ret.reverse else ret

/-- get_todo_handler from main.py: the todo at the id, else 404. -/
def main.get_todo_handler (todo_id : Nat) (store : List ToDoItem) :
    HResult ToDoItem :=
  match dictGet store todo_id with
  | some todo => .ok 200 todo
  | none => .httpError 404 "To Do Not Found"

/-- CreateToDoRequest from main.py: the client supplies the id as well. -/
structure main.CreateToDoRequest where
  id : Nat
  content : String
  is_done : Bool
deriving DecidableEq, Repr

/-- create_todo_handler from main.py: stores the request body under the
client-supplied id and returns the stored record (status 201). -/
def main.create_todo_handler (request : main.CreateToDoRequest)
    (store : List ToDoItem) : List ToDoItem × Option ToDoItem :=
  let store' := dictSet store ⟨request.id, request.content, request.is_done⟩
  (store', dictGet store' request.id)

/-- update_todo_handler from main.py: mutates is_done of the stored dict
in place and returns it, else 404. -/
def main.update_todo_handler (todo_id : Nat) (is_done : Bool)
    (store : List ToDoItem) : HResult ToDoItem × List ToDoItem :=
  match dictGet store todo_id with
  | some todo =>
    let updated := { todo with is_done := is_done }
    (.ok 200 updated,
     store.map (fun t => if t.id == todo_id then { t with is_done := is_done } else t))
  | none => (.httpError 404 "To Do Not Found", store)

/-- delete_todo_handler from main.py: pops the id; empty 204 when it was
present, 404 otherwise. -/
def main.delete_todo_handler (todo_id : Nat) (store : List ToDoItem) :
    HResult Unit × List ToDoItem :=
  match dictPop store todo_id with
  | (some _, store') => (.ok 204 (), store')
  | (none, store') => (.httpError 404 "To Do Not Found", store')

/-! ## database/repository.py: the ToDo repository over a relational store

The SQLAlchemy session against the relational store is embedded as
explicit state: the table rows in insertion order plus the primary-key
auto-increment counter that the store uses to assign ids on insert
(id is a primary-key Integer column; create_todo commits and refreshes
to read the assigned id back). -/

/-- The relational store backing ToDoRepository: the todo table rows and
the next primary key the store will assign. -/
structure DB where
  rows : List ToDoItem
  nextId : Nat
deriving DecidableEq, Repr

/-- Well-formed store: every already-assigned id is below the
auto-increment counter. -/
def DB.WF (db : DB) : Prop :=
  ∀ t ∈ db.rows, t.id < db.nextId

instance (db : DB) : Decidable db.WF := by
  unfold DB.WF; infer_instance

/-- ToDoRepository.get_todo_by_todo_id: select the row whose id matches. -/
def ToDoRepository.get_todo_by_todo_id (db : DB) (todo_id : Nat) : Option ToDoItem :=
  db.rows.find? (fun t => t.id == todo_id)

/-- ToDoRepository.create_todo: add the entity, commit, refresh; the store
assigns the next primary key and the entity comes back with it populated. -/
def ToDoRepository.create_todo (db : DB) (content : String) (is_done : Bool) :
    DB × ToDoItem :=
  let todo : ToDoItem := ⟨db.nextId, content, is_done⟩
  (⟨db.rows ++ [todo], db.nextId + 1⟩, todo)

/-- ToDoRepository.update_todo: add the (already persistent) entity and
commit, persisting its full state over the row with the same id. -/
def ToDoRepository.update_todo (db : DB) (todo : ToDoItem) : DB × ToDoItem :=
  (⟨db.rows.map (fun t => if t.id == todo.id then todo else t), db.nextId⟩, todo)

/-- ToDoRepository.delete_todo: DELETE FROM todo WHERE id matches;
removes nothing (and raises nothing) when no row matches. -/
def ToDoRepository.delete_todo (db : DB) (todo_id : Nat) : DB :=
  ⟨db.rows.filter (fun t => t.id != todo_id), db.nextId⟩

/-! ## api/todo.py: the router-based handlers -/

/-- ToDoSchema from schema/response.py: id, content, is_done, populated
from the ORM entity attributes by model_validate. -/
structure ToDoSchema where
  id : Nat
  content : String
  is_done : Bool
deriving DecidableEq, Repr

/-- ToDoSchema.model_validate on a ToDo entity: copies the attributes. -/
def ToDoSchema.model_validate (t : ToDoItem) : ToDoSchema :=
  ⟨t.id, t.content, t.is_done⟩

/-- CreateToDoRequest from schema/request.py: content and is_done only
(no client-supplied id, unlike the draft in main.py). -/
structure CreateToDoRequest where
  content : String
  is_done : Bool
deriving DecidableEq, Repr

/-- create_todo_handler from api/todo.py: ToDo.create builds the entity
with id unset from the request fields, the repository persists it and the
handler returns the validated schema (status 201). -/
def api.create_todo_handler (request : CreateToDoRequest) (db : DB) :
    DB × ToDoSchema :=
  let created := ToDoRepository.create_todo db request.content request.is_done
  (created.1, ToDoSchema.model_validate created.2)

/-- get_todo_handler from api/todo.py: fetch by id, 404 when absent. -/
def api.get_todo_handler (todo_id : Nat) (db : DB) : HResult ToDoSchema :=
  match ToDoRepository.get_todo_by_todo_id db todo_id with
  | some todo => .ok 200 (ToDoSchema.model_validate todo)
  | none => .httpError 404 "To Do Not Found"

/-- update_todo_handler from api/todo.py: fetch by id; when present apply
done() or undone() according to the body, persist via update_todo and
return the refreshed entity; 404 when absent. -/
def api.update_todo_handler (todo_id : Nat) (is_done : Bool) (db : DB) :
    HResult ToDoSchema × DB :=
  match ToDoRepository.get_todo_by_todo_id db todo_id with
  | some todo =>
    let todo' := if is_done then todo.done else todo.undone
    let updated := ToDoRepository.update_todo db todo'
    (.ok 200 (ToDoSchema.model_validate updated.2), updated.1)
  | none => (.httpError 404 "To Do Not Found", db)

/-- delete_todo_handler from api/todo.py: fetch by id; 404 when absent,
else delete through the repository and return empty 204. -/
def api.delete_todo_handler (todo_id : Nat) (db : DB) :
    HResult Unit × DB :=
  match ToDoRepository.get_todo_by_todo_id db todo_id with
  | none => (.httpError 404 "To Do Not Found", db)
  | some _ => (.ok 204 (), ToDoRepository.delete_todo db todo_id)

/-! ## service/user.py: UserService (bcrypt passwords and JWTs)

bcrypt and PyJWT are external libraries; they are embedded by their
contracts, which is what service/user.py relies on. A bcrypt hash string
embeds the salt it was produced with, so hashing the same password with
different salts yields different strings, while checkpw re-derives the
digest from the stored salt. A JWT is a signed claim set; jwt.decode
verifies the signature with the symmetric secret and the exp claim
against the current time (PyJWT treats exp less than or equal to now as
expired, with zero leeway), and decode_jwt then returns the sub claim. -/

/-- A bcrypt hash string: the salt is embedded in the string next to the
digest derived from password and salt. -/
structure BcryptHash where
  salt : Nat
  digest : Nat
deriving DecidableEq, Repr

/-- The digest part of a bcrypt hash: a concrete one-way mixing of the
password characters with the salt (stands in for the bcrypt KDF). -/
def bcryptDigest (plain : String) (salt : Nat) : Nat :=
  plain.toList.foldl (fun a c => (a * 31 + c.toNat + 1) % 1000003) (salt % 1000003)

/-- bcrypt.hashpw: hash the password with the given salt; the salt is
recoverable from the output. gensalt() draws the salt at random, so the
salt is an explicit parameter here and non-determinism is quantification
over it. -/
def bcrypt.hashpw (plain : String) (salt : Nat) : BcryptHash :=
  ⟨salt, bcryptDigest plain salt⟩

/-- bcrypt.checkpw: re-derive the digest from the candidate password and
the salt stored in the hash, and compare. -/
def bcrypt.checkpw (plain : String) (hashed : BcryptHash) : Bool :=
  bcryptDigest plain hashed.salt == hashed.digest

/-- UserService.hash_password: bcrypt.hashpw with a fresh random salt
(the salt parameter). -/
def UserService.hash_password (plain_password : String) (salt : Nat) : BcryptHash :=
  bcrypt.hashpw plain_password salt

/-- UserService.verify_password: bcrypt.checkpw. -/
def UserService.verify_password (plain_password : String) (hashed_password : BcryptHash) :
    Bool :=
  bcrypt.checkpw plain_password hashed_password

/-- The claim set carried by a token: either a well-formed payload with
subject and expiry, or bytes that do not parse as a claim set. -/
inductive JwtClaims where
  | valid : String → Nat → JwtClaims
  | malformed : String → JwtClaims
deriving DecidableEq, Repr

/-- Serialization of a claim set, fed to the signature. -/
def JwtClaims.serialize : JwtClaims → List Nat
  | .valid sub exp => 0 :: exp :: sub.toList.map Char.toNat
  | .malformed s => 1 :: s.toList.map Char.toNat

/-- HMAC-style signature of a claim set under the symmetric secret
(stands in for HS256). -/
def jwtSign (secret : String) (claims : JwtClaims) : Nat :=
  (secret.toList.map Char.toNat ++ claims.serialize).foldl
    (fun a c => (a * 131 + c + 1) % 1000000007) 7

/-- A token as transmitted: a claim set plus a signature, which matches
jwtSign only if it was produced with the same secret over the same
claims. -/
structure JwtToken where
  claims : JwtClaims
  sig : Nat
deriving DecidableEq, Repr

/-- Failure modes of jwt.decode: bad signature, unparsable payload,
expired exp claim. -/
inductive JwtError where
  | invalidSignature : JwtError
  | decodeError : JwtError
  | expiredSignature : JwtError
deriving DecidableEq, Repr

/-- UserService.create_jwt: jwt.encode of sub = username and
exp = now + 1 day (86400 seconds), signed with the service secret. -/
def UserService.create_jwt (secret : String) (username : String) (now : Nat) :
    JwtToken :=
  ⟨.valid username (now + 86400), jwtSign secret (.valid username (now + 86400))⟩

/-- UserService.decode_jwt: jwt.decode with the service secret — verifies
the signature, parses the payload, checks exp against now, and returns
the sub claim; each failure raises (is an error), never a normal return. -/
def UserService.decode_jwt (secret : String) (access_token : JwtToken) (now : Nat) :
    Except JwtError String :=
  if access_token.sig ≠ jwtSign secret access_token.claims then
    .error .invalidSignature
  else
    match access_token.claims with
    | .malformed _ => .error .decodeError
    | .valid sub exp => if exp ≤ now then .error .expiredSignature else .ok sub

/-! ## The User entity and the authenticated list-todos handler -/

/-- Modelled from the spec: the User entity of database/orm.py is not
among the provided sources (only its callers in database/repository.py,
api/todo.py and the tests are); per the spec it has an id assigned by
the store, a unique username, a password hash never exposed outside the
credential boundary, and owns a todos collection. -/
structure User where
  id : Nat
  username : String
  password_hash : BcryptHash
  todos : List ToDoItem
deriving DecidableEq, Repr

/-- Modelled from the spec: UserRepository.get_user_by_username is called
by api/todo.py but absent from the provided database/repository.py; per
the spec it resolves a user by username, returning none when absent. -/
def UserRepository.get_user_by_username (users : List User) (username : String) :
    Option User :=
  users.find? (fun u => u.username == username)

/-- ToDoListSchema from schema/response.py. -/
structure ToDoListSchema where
  todos : List ToDoSchema
deriving DecidableEq, Repr

/-- Outcome of the list-todos handler: a response, an HTTPException, or
an exception the handler does not catch (which the framework surfaces as
a generic 500, not as a structured 4xx). -/
inductive AuthedResult (α : Type) where
  | ok : Nat → α → AuthedResult α
  | httpError : Nat → String → AuthedResult α
  | uncaught : JwtError → AuthedResult α
deriving DecidableEq, Repr

/-- get_todos_handler from api/todo.py: decode_jwt on the bearer token
(its exceptions are not caught by the handler), resolve the user (404
when absent), then return the user's todos — reversed when order is
truthy and equals DESC, else in collection order. -/
def api.get_todos_handler (secret : String) (access_token : JwtToken) (now : Nat)
    (users : List User) (order : Option String) : AuthedResult ToDoListSchema :=
  match UserService.decode_jwt secret access_token now with
  | .error e => .uncaught e
  | .ok username =>
    match UserRepository.get_user_by_username users username with
    | none => .httpError 404 "User not found"
    | some user =>
      let todos := user.todos
      if strTruthy order && (order == some "DESC") then
        .ok 200 ⟨todos.reverse.map ToDoSchema.model_validate⟩
      else
        .ok 200 ⟨todos.map ToDoSchema.model_validate⟩

/-! ## Sign-up: request, response schema, handler -/

/-- SignUpRequest from schema/request.py: username and password. -/
structure SignUpRequest where
  username : String
  password : String
deriving DecidableEq, Repr

/-- UserSchema from schema/response.py: exactly the fields id and
username, populated from the entity attributes by model_validate. -/
structure UserSchema where
  id : Nat
  username : String
deriving DecidableEq, Repr

/-- UserSchema.model_validate on a User entity: copies id and username. -/
def UserSchema.model_validate (u : User) : UserSchema :=
  ⟨u.id, u.username⟩

/-- A JSON value, as serialized into a response payload. -/
inductive JsonVal where
  | num : Nat → JsonVal
  | str : String → JsonVal
deriving DecidableEq, Repr

/-- The JSON object a UserSchema response serializes to: its declared
fields, in declaration order, and nothing else. -/
def UserSchema.json (u : UserSchema) : List (String × JsonVal) :=
  [("id", .num u.id), ("username", .str u.username)]

/-- The store holding users: rows plus the auto-increment counter. -/
structure UserDB where
  rows : List User
  nextId : Nat
deriving DecidableEq, Repr

/-- UserRepository.save_user from database/repository.py: add, commit,
refresh; the store assigns the next primary key. -/
def UserRepository.save_user (db : UserDB) (username : String)
    (password_hash : BcryptHash) : UserDB × User :=
  let user : User := ⟨db.nextId, username, password_hash, []⟩
  (⟨db.rows ++ [user], db.nextId + 1⟩, user)

/-- Modelled from the spec: the sign-up handler (api/user.py is not among
the provided sources; schema/response.py and tests/test_users_api.py
are). Per the spec and the test: hash the password, construct the User
with the hash (id unset), persist via UserRepository.save_user, and
respond 201 with UserSchema (id and username) only. The fresh bcrypt
salt is the salt parameter. -/
def api.sign_up_handler (request : SignUpRequest) (salt : Nat) (db : UserDB) :
    UserDB × UserSchema :=
  let hashed := UserService.hash_password request.password salt
  let saved := UserRepository.save_user db request.username hashed
  (saved.1, UserSchema.model_validate saved.2)

/-! ## Helper lemmas -/

/-- Applying done() or undone() according to the request body sets is_done
to the body value and nothing else. -/
theorem doneUndone_eq (t : ToDoItem) (v : Bool) :
    (if v then t.done else t.undone) = { t with is_done := v } := by
  cases v <;> rfl

/-- find? reaches a matching appended element when nothing earlier matches. -/
theorem find?_append_right (l : List ToDoItem) (p : ToDoItem → Bool) (x : ToDoItem)
    (h : ∀ t ∈ l, p t = false) (hx : p x = true) :
    (l ++ [x]).find? p = some x := by
  induction l with
  | nil => simp [List.find?, hx]
  | cons a l ih =>
    have ha : p a = false := h a (List.mem_cons_self a l)
    rw [List.cons_append]
    simp only [List.find?_cons, ha]
    exact ih (fun t ht => h t (List.mem_cons_of_mem a ht))

/-- find? after replacing every id-matching element: when some element
matched, the first match is now the replacement. -/
theorem find?_map_replace (l : List ToDoItem) (i : Nat) (x : ToDoItem)
    (hx : x.id = i) (h : l.any (fun t => t.id == i) = true) :
    (l.map (fun t => if t.id == i then x else t)).find? (fun t => t.id == i)
      = some x := by
  induction l with
  | nil => simp at h
  | cons a l ih =>
    by_cases hb : (a.id == i) = true
    · rw [List.map_cons, if_pos hb]
      simp only [List.find?_cons, show (x.id == i) = true by simp [hx]]
    · have hb' : (a.id == i) = false := by simpa using hb
      rw [List.map_cons, if_neg hb]
      simp only [List.find?_cons, hb']
      apply ih
      rw [List.any_cons, hb'] at h
      simpa using h

/-- Writing a todo into the dict store and reading back its id yields it. -/
theorem dictGet_dictSet_self (store : List ToDoItem) (item : ToDoItem) :
    dictGet (dictSet store item) item.id = some item := by
  unfold dictGet dictSet
  by_cases h : store.any (fun t => t.id == item.id) = true
  · rw [if_pos h]
    exact find?_map_replace store item.id item rfl h
  · rw [if_neg h]
    apply find?_append_right
    · intro t ht
      by_contra hc
      simp only [Bool.not_eq_false] at hc
      exact h (List.any_eq_true.mpr ⟨t, ht, hc⟩)
    · simp

/-- After a repository delete, the deleted id resolves to no row. -/
theorem get_after_delete (db : DB) (i : Nat) :
    ToDoRepository.get_todo_by_todo_id (ToDoRepository.delete_todo db i) i = none := by
  unfold ToDoRepository.get_todo_by_todo_id ToDoRepository.delete_todo
  rw [List.find?_eq_none]
  intro x hx
  have hp := List.of_mem_filter hx
  simpa [bne_iff_ne] using hp

/-! ## Claims -/

/-- C3: for every plaintext password, verify_password accepts the output
of hash_password on that password, even though hash_password is
non-deterministic — distinct salts (the source of randomness) produce
distinct hash strings for the same input. -/
theorem C3_verify_after_hash (plain : String) (s₁ s₂ : Nat) (h : s₁ ≠ s₂) :
    UserService.verify_password plain (UserService.hash_password plain s₁) = true ∧
    UserService.hash_password plain s₁ ≠ UserService.hash_password plain s₂ := by
  refine ⟨?_, ?_⟩
  · simp [UserService.verify_password, UserService.hash_password,
      bcrypt.checkpw, bcrypt.hashpw]
  · intro he
    exact h (congrArg BcryptHash.salt he)

/-- C3 witness at plain = pw, salts 1 and 2. -/
theorem C3_verify_after_hash_witness :
    (1 : Nat) ≠ 2 ∧
    (UserService.verify_password "pw" (UserService.hash_password "pw" 1) = true ∧
     UserService.hash_password "pw" 1 ≠ UserService.hash_password "pw" 2) :=
  ⟨by decide, C3_verify_after_hash "pw" 1 2 (by decide)⟩

/-- C4: decoding a freshly issued token returns the username it was
issued for; decoding the same token at or after its stated expiry
(issuance + 24 hours = 86400 seconds) fails with an expiry error. -/
theorem C4_jwt_roundtrip_expiry (secret username : String) (now t : Nat)
    (h : now + 86400 ≤ t) :
    UserService.decode_jwt secret (UserService.create_jwt secret username now) now
      = .ok username ∧
    UserService.decode_jwt secret (UserService.create_jwt secret username now) t
      = .error .expiredSignature := by
  constructor
  · simp [UserService.decode_jwt, UserService.create_jwt]
  · simp [UserService.decode_jwt, UserService.create_jwt, h]

/-- C4 witness: issue at time 0 for user u with secret k, decode at 0 and
at 86400. -/
theorem C4_jwt_roundtrip_expiry_witness :
    0 + 86400 ≤ 86400 ∧
    (UserService.decode_jwt "k" (UserService.create_jwt "k" "u" 0) 0 = .ok "u" ∧
     UserService.decode_jwt "k" (UserService.create_jwt "k" "u" 0) 86400
       = .error .expiredSignature) :=
  ⟨by decide, C4_jwt_roundtrip_expiry "k" "u" 0 86400 (by decide)⟩

/-- Replacing every id-matching element is idempotent when the
replacement carries the matched id. -/
theorem map_replace_idem (l : List ToDoItem) (i : Nat) (x : ToDoItem) (hx : x.id = i) :
    (l.map (fun t => if t.id == i then x else t)).map
        (fun t => if t.id == i then x else t)
      = l.map (fun t => if t.id == i then x else t) := by
  induction l with
  | nil => rfl
  | cons a l ih =>
    simp only [List.map_cons, ih]
    congr 1
    by_cases hb : (a.id == i) = true
    · rw [if_pos hb, if_pos (by simpa using hx)]
    · rw [if_neg hb, if_neg hb]

/-- The update handler on a present id: sets is_done of every row with
that id to the body value and responds with the refreshed entity. -/
theorem update_handler_of_found (i : Nat) (v : Bool) (db : DB) (todo : ToDoItem)
    (hget : ToDoRepository.get_todo_by_todo_id db i = some todo) :
    api.update_todo_handler i v db
      = (.ok 200 ⟨i, todo.content, v⟩,
         ⟨db.rows.map (fun t => if t.id == i then { todo with is_done := v } else t),
          db.nextId⟩) := by
  have hid : todo.id = i := by simpa using List.find?_some hget
  unfold api.update_todo_handler
  rw [hget]
  simp only [doneUndone_eq]
  unfold ToDoRepository.update_todo
  simp [ToDoSchema.model_validate, hid]

/-- C8: done() and undone() are idempotent on a ToDo, and the PATCH
handler applied twice with the same is_done value equals a single
application — same response, same resulting store, never an error. -/
theorem C8_done_undone_idempotent (t : ToDoItem) (i : Nat) (v : Bool) (db : DB) :
    t.done.done = t.done ∧ t.undone.undone = t.undone ∧
    api.update_todo_handler i v (api.update_todo_handler i v db).2
      = api.update_todo_handler i v db := by
  refine ⟨rfl, rfl, ?_⟩
  cases hget : ToDoRepository.get_todo_by_todo_id db i with
  | none =>
    have h1 : api.update_todo_handler i v db = (.httpError 404 "To Do Not Found", db) := by
      unfold api.update_todo_handler; rw [hget]
    rw [h1]
    exact h1
  | some todo =>
    have hid : todo.id = i := by simpa using List.find?_some hget
    rw [update_handler_of_found i v db todo hget]
    have hget' : ToDoRepository.get_todo_by_todo_id
        ⟨db.rows.map (fun t => if t.id == i then { todo with is_done := v } else t),
         db.nextId⟩ i
        = some { todo with is_done := v } := by
      unfold ToDoRepository.get_todo_by_todo_id
      apply find?_map_replace _ _ _ (by simpa using hid)
      exact List.any_eq_true.mpr
        ⟨todo, List.mem_of_find?_eq_some hget, by simpa using hid⟩
    rw [update_handler_of_found i v _ _ hget']
    refine congrArg₂ Prod.mk rfl ?_
    refine congrArg (DB.mk · db.nextId) ?_
    exact map_replace_idem db.rows i { todo with is_done := v } (by simpa using hid)

/-- Applies a transformation to the todo list of a successful response
and leaves every failure outcome untouched. -/
def AuthedResult.mapTodos (f : List ToDoSchema → List ToDoSchema) :
    AuthedResult ToDoListSchema → AuthedResult ToDoListSchema
  | .ok c r => .ok c ⟨f r.todos⟩
  | .httpError c d => .httpError c d
  | .uncaught e => .uncaught e

/-- The list-todos handler when decode_jwt fails: the exception escapes. -/
theorem api_get_todos_uncaught (secret : String) (token : JwtToken) (now : Nat)
    (users : List User) (order : Option String) (e : JwtError)
    (hdec : UserService.decode_jwt secret token now = .error e) :
    api.get_todos_handler secret token now users order = .uncaught e := by
  unfold api.get_todos_handler
  rw [hdec]

/-- The list-todos handler when the decoded username matches no user. -/
theorem api_get_todos_user_absent (secret : String) (token : JwtToken) (now : Nat)
    (users : List User) (order : Option String) (username : String)
    (hdec : UserService.decode_jwt secret token now = .ok username)
    (huser : UserRepository.get_user_by_username users username = none) :
    api.get_todos_handler secret token now users order
      = .httpError 404 "User not found" := by
  unfold api.get_todos_handler
  simp only [hdec, huser]

/-- The list-todos handler on an authenticated, resolved user: the user's
todos, reversed exactly when order is a truthy DESC. -/
theorem api_get_todos_ok (secret : String) (token : JwtToken) (now : Nat)
    (users : List User) (order : Option String) (username : String) (user : User)
    (hdec : UserService.decode_jwt secret token now = .ok username)
    (huser : UserRepository.get_user_by_username users username = some user) :
    api.get_todos_handler secret token now users order
      = if (strTruthy order && (order == some "DESC")) = true
        then .ok 200 ⟨user.todos.reverse.map ToDoSchema.model_validate⟩
        else .ok 200 ⟨user.todos.map ToDoSchema.model_validate⟩ := by
  unfold api.get_todos_handler
  simp only [hdec, huser]

/-- C5: for every store and user, listing with order DESC returns exactly
the reverse of the sequence returned with order unspecified, and every
other order value (including the empty string) behaves identically to
unspecified — never an error. Holds for the dict-backed handler of
main.py and for the authenticated handler of api/todo.py. -/
theorem C5_order_desc_reverse (store : List ToDoItem) (order : Option String)
    (secret : String) (token : JwtToken) (now : Nat) (users : List User)
    (h : order ≠ some "DESC") :
    main.get_todos_handler (some "DESC") store
      = (main.get_todos_handler none store).reverse ∧
    main.get_todos_handler order store = main.get_todos_handler none store ∧
    api.get_todos_handler secret token now users (some "DESC")
      = (api.get_todos_handler secret token now users none).mapTodos List.reverse ∧
    api.get_todos_handler secret token now users order
      = api.get_todos_handler secret token now users none := by
  have hdesc : (strTruthy (some "DESC")
      && ((some "DESC" : Option String) == some "DESC")) = true := by decide
  have hother : (strTruthy order && (order == some "DESC")) = false := by
    cases order with
    | none => rfl
    | some s =>
      have hs : ((some s : Option String) == some "DESC") = false :=
        beq_eq_false_iff_ne.mpr h
      simp [hs]
  have hnone : (strTruthy (none : Option String)
      && ((none : Option String) == some "DESC")) = false := rfl
  refine ⟨rfl, ?_, ?_, ?_⟩
  · show (if (strTruthy order && (order == some "DESC")) = true
        then store.reverse else store) = store
    rw [hother]
    simp
  · cases hdec : UserService.decode_jwt secret token now with
    | error e =>
      rw [api_get_todos_uncaught secret token now users (some "DESC") e hdec,
        api_get_todos_uncaught secret token now users none e hdec]
      rfl
    | ok username =>
      cases huser : UserRepository.get_user_by_username users username with
      | none =>
        rw [api_get_todos_user_absent secret token now users (some "DESC") username
            hdec huser,
          api_get_todos_user_absent secret token now users none username hdec huser]
        rfl
      | some user =>
        rw [api_get_todos_ok secret token now users (some "DESC") username user
            hdec huser,
          api_get_todos_ok secret token now users none username user hdec huser,
          if_pos hdesc, if_neg (by rw [hnone]; simp)]
        unfold AuthedResult.mapTodos
        rw [List.map_reverse]
  · cases hdec : UserService.decode_jwt secret token now with
    | error e =>
      rw [api_get_todos_uncaught secret token now users order e hdec,
        api_get_todos_uncaught secret token now users none e hdec]
    | ok username =>
      cases huser : UserRepository.get_user_by_username users username with
      | none =>
        rw [api_get_todos_user_absent secret token now users order username hdec huser,
          api_get_todos_user_absent secret token now users none username hdec huser]
      | some user =>
        rw [api_get_todos_ok secret token now users order username user hdec huser,
          api_get_todos_ok secret token now users none username user hdec huser,
          if_neg (by rw [hother]; simp), if_neg (by rw [hnone]; simp)]

/-- C5 witness at order = none (an order value other than DESC), a
one-row store, an empty user list and a concrete token. -/
theorem C5_order_desc_reverse_witness :
    (none : Option String) ≠ some "DESC" ∧
    (main.get_todos_handler (some "DESC") [⟨1, "a", true⟩]
        = (main.get_todos_handler none [⟨1, "a", true⟩]).reverse ∧
     main.get_todos_handler none [⟨1, "a", true⟩]
        = main.get_todos_handler none [⟨1, "a", true⟩] ∧
     api.get_todos_handler "k" ⟨.malformed "x", 0⟩ 0 [] (some "DESC")
        = (api.get_todos_handler "k" ⟨.malformed "x", 0⟩ 0 []
            none).mapTodos List.reverse ∧
     api.get_todos_handler "k" ⟨.malformed "x", 0⟩ 0 [] none
        = api.get_todos_handler "k" ⟨.malformed "x", 0⟩ 0 [] none) :=
  ⟨by decide,
   C5_order_desc_reverse [⟨1, "a", true⟩] none "k" ⟨.malformed "x", 0⟩ 0 [] (by decide)⟩

/-- C7: creating a todo and fetching it by the id returned from creation
yields exactly the content and is_done supplied in the request — for the
dict-backed flow of main.py (client-supplied id) and for the
repository-backed flow of api/todo.py (store-assigned id, requiring that
the store counter is ahead of all existing ids). -/
theorem C7_create_then_get (store : List ToDoItem) (req : main.CreateToDoRequest)
    (db : DB) (areq : CreateToDoRequest) (hwf : db.WF) :
    (main.create_todo_handler req store).2 = some ⟨req.id, req.content, req.is_done⟩ ∧
    main.get_todo_handler req.id (main.create_todo_handler req store).1
      = .ok 200 ⟨req.id, req.content, req.is_done⟩ ∧
    (api.create_todo_handler areq db).2.content = areq.content ∧
    (api.create_todo_handler areq db).2.is_done = areq.is_done ∧
    api.get_todo_handler (api.create_todo_handler areq db).2.id
        (api.create_todo_handler areq db).1
      = .ok 200 (api.create_todo_handler areq db).2 := by
  have hmain : dictGet (dictSet store ⟨req.id, req.content, req.is_done⟩) req.id
      = some ⟨req.id, req.content, req.is_done⟩ :=
    dictGet_dictSet_self store ⟨req.id, req.content, req.is_done⟩
  refine ⟨hmain, ?_, rfl, rfl, ?_⟩
  · unfold main.get_todo_handler
    have : dictGet (main.create_todo_handler req store).1 req.id
        = some ⟨req.id, req.content, req.is_done⟩ := hmain
    rw [this]
  · have hno : ∀ t ∈ db.rows, (t.id == db.nextId) = false := by
      intro t ht
      exact beq_eq_false_iff_ne.mpr (Nat.ne_of_lt (hwf t ht))
    have hfind := find?_append_right db.rows (fun t => t.id == db.nextId)
      ⟨db.nextId, areq.content, areq.is_done⟩ hno (by simp)
    unfold api.get_todo_handler ToDoRepository.get_todo_by_todo_id
    have : (api.create_todo_handler areq db).1.rows.find?
        (fun t => t.id == (api.create_todo_handler areq db).2.id)
        = some ⟨db.nextId, areq.content, areq.is_done⟩ := hfind
    rw [this]
    rfl

/-- C7 witness: a store holding one row with id 0 and counter 1. -/
theorem C7_create_then_get_witness :
    DB.WF ⟨[⟨0, "seed", false⟩], 1⟩ ∧
    ((main.create_todo_handler ⟨7, "c", true⟩ []).2 = some ⟨7, "c", true⟩ ∧
     main.get_todo_handler 7 (main.create_todo_handler ⟨7, "c", true⟩ []).1
       = .ok 200 ⟨7, "c", true⟩ ∧
     (api.create_todo_handler ⟨"c", true⟩ ⟨[⟨0, "seed", false⟩], 1⟩).2.content = "c" ∧
     (api.create_todo_handler ⟨"c", true⟩ ⟨[⟨0, "seed", false⟩], 1⟩).2.is_done = true ∧
     api.get_todo_handler
         (api.create_todo_handler ⟨"c", true⟩ ⟨[⟨0, "seed", false⟩], 1⟩).2.id
         (api.create_todo_handler ⟨"c", true⟩ ⟨[⟨0, "seed", false⟩], 1⟩).1
       = .ok 200 (api.create_todo_handler ⟨"c", true⟩ ⟨[⟨0, "seed", false⟩], 1⟩).2) :=
  ⟨by decide, C7_create_then_get [] ⟨7, "c", true⟩ ⟨[⟨0, "seed", false⟩], 1⟩
    ⟨"c", true⟩ (by decide)⟩

/-- The store left by the main.py delete handler is the filtered dict in
both the found and the not-found branch. -/
theorem delete_handler_store (i : Nat) (store : List ToDoItem) :
    (main.delete_todo_handler i store).2 = store.filter (fun t => t.id != i) := by
  unfold main.delete_todo_handler dictPop
  cases store.find? (fun t => t.id == i) <;> rfl

/-- C9 counterexample: in main.py the create endpoint stores the todo
under the client-supplied id, so a deleted id is reused — create id 1,
delete it (success 204), create with id 1 again: the new todo now
occupies the previously deleted id. -/
theorem C9_counterexample :
    (main.delete_todo_handler 1 (main.create_todo_handler ⟨1, "todo A", true⟩ []).1).1
        = .ok 204 () ∧
    (main.create_todo_handler ⟨1, "todo B", false⟩
        (main.delete_todo_handler 1
          (main.create_todo_handler ⟨1, "todo A", true⟩ []).1).2).2
      = some ⟨1, "todo B", false⟩ := by decide

/-- C9 amended: ids in the dict-backed store of main.py are client
supplied, not store managed, so they can be reused after deletion: for
every store and request, after deleting the request's id a create with
that id succeeds and the new todo is stored under the deleted id. -/
theorem C9_id_reuse_after_delete (store : List ToDoItem)
    (req : main.CreateToDoRequest) :
    dictGet (main.delete_todo_handler req.id store).2 req.id = none ∧
    dictGet (main.create_todo_handler req
        (main.delete_todo_handler req.id store).2).1 req.id
      = some ⟨req.id, req.content, req.is_done⟩ := by
  constructor
  · rw [delete_handler_store]
    unfold dictGet
    rw [List.find?_eq_none]
    intro x hx
    simpa [bne_iff_ne, beq_iff_eq] using List.of_mem_filter hx
  · exact dictGet_dictSet_self _ _

/-- C1 counterexample: a correctly signed token decoded after its expiry
makes decode_jwt raise, and the list-todos handler surfaces this as an
uncaught exception (a generic error), not as a 401 unauthenticated
response. -/
theorem C1_counterexample :
    api.get_todos_handler "k" (UserService.create_jwt "k" "u" 0) 86400 [] none
      = .uncaught .expiredSignature ∧
    api.get_todos_handler "k" (UserService.create_jwt "k" "u" 0) 86400 [] none
      ≠ .httpError 401 "unauthenticated" :=
  ⟨by decide, by decide⟩

/-- C1 amended: for every token with an invalid signature, a malformed
payload, or an expired exp claim, decode_jwt fails with a JWT error —
but the list-todos handler does not catch the failure, so it escapes as
an uncaught exception (surfaced by the framework as a generic 500), not
as a 401 unauthenticated response. -/
theorem C1_decode_failure_uncaught (secret : String) (token : JwtToken) (now : Nat)
    (users : List User) (order : Option String)
    (hbad : token.sig ≠ jwtSign secret token.claims ∨
            (∃ s, token.claims = .malformed s) ∨
            (∃ sub exp, token.claims = .valid sub exp ∧ exp ≤ now)) :
    ∃ e : JwtError,
      UserService.decode_jwt secret token now = .error e ∧
      api.get_todos_handler secret token now users order = .uncaught e := by
  have hinv : token.sig ≠ jwtSign secret token.claims →
      UserService.decode_jwt secret token now = .error .invalidSignature := by
    intro hsig
    unfold UserService.decode_jwt
    rw [if_pos hsig]
  rcases hbad with hsig | ⟨s, hm⟩ | ⟨sub, exp, hv, hexp⟩
  · exact ⟨.invalidSignature, hinv hsig,
      api_get_todos_uncaught secret token now users order _ (hinv hsig)⟩
  · by_cases hsig : token.sig ≠ jwtSign secret token.claims
    · exact ⟨.invalidSignature, hinv hsig,
        api_get_todos_uncaught secret token now users order _ (hinv hsig)⟩
    · have hdec : UserService.decode_jwt secret token now = .error .decodeError := by
        unfold UserService.decode_jwt
        rw [if_neg hsig]
        simp only [hm]
      exact ⟨.decodeError, hdec,
        api_get_todos_uncaught secret token now users order _ hdec⟩
  · by_cases hsig : token.sig ≠ jwtSign secret token.claims
    · exact ⟨.invalidSignature, hinv hsig,
        api_get_todos_uncaught secret token now users order _ (hinv hsig)⟩
    · have hdec : UserService.decode_jwt secret token now
          = .error .expiredSignature := by
        unfold UserService.decode_jwt
        rw [if_neg hsig]
        simp only [hv]
        rw [if_pos hexp]
      exact ⟨.expiredSignature, hdec,
        api_get_todos_uncaught secret token now users order _ hdec⟩

/-- C1 witness: the expired-token case at a concrete token. -/
theorem C1_decode_failure_uncaught_witness :
    ((UserService.create_jwt "k" "u" 0).sig
        ≠ jwtSign "k" (UserService.create_jwt "k" "u" 0).claims ∨
     (∃ s, (UserService.create_jwt "k" "u" 0).claims = .malformed s) ∨
     (∃ sub exp, (UserService.create_jwt "k" "u" 0).claims = .valid sub exp ∧
        exp ≤ 86400)) ∧
    (∃ e : JwtError,
      UserService.decode_jwt "k" (UserService.create_jwt "k" "u" 0) 86400
        = .error e ∧
      api.get_todos_handler "k" (UserService.create_jwt "k" "u" 0) 86400 [] none
        = .uncaught e) :=
  ⟨Or.inr (Or.inr ⟨"u", 86400, by decide, by decide⟩),
   C1_decode_failure_uncaught "k" (UserService.create_jwt "k" "u" 0) 86400 [] none
     (Or.inr (Or.inr ⟨"u", 86400, by decide, by decide⟩))⟩

/-- C2 counterexample: deleting an id absent from the store is not a
successful no-op at the endpoint — the handler answers 404, not 204. -/
theorem C2_counterexample :
    api.delete_todo_handler 5 ⟨[], 1⟩
      = (.httpError 404 "To Do Not Found", ⟨[], 1⟩) ∧
    (api.delete_todo_handler 5 ⟨[], 1⟩).1 ≠ .ok 204 () :=
  ⟨by decide, by decide⟩

/-- C2 amended: the repository-level delete is a no-op (not an error) for
an absent id and is idempotent, but the delete endpoint answers 404 for
an absent id; deleting the same id twice therefore gives success then
404, and the second call leaves the store exactly as the first left it. -/
theorem C2_delete_semantics (db : DB) (i : Nat) (db₂ : DB) (j : Nat)
    (habs : ToDoRepository.get_todo_by_todo_id db i = none) :
    ToDoRepository.delete_todo db i = db ∧
    api.delete_todo_handler i db = (.httpError 404 "To Do Not Found", db) ∧
    ToDoRepository.delete_todo (ToDoRepository.delete_todo db₂ j) j
      = ToDoRepository.delete_todo db₂ j ∧
    api.delete_todo_handler j (api.delete_todo_handler j db₂).2
      = (.httpError 404 "To Do Not Found", (api.delete_todo_handler j db₂).2) := by
  refine ⟨?_, ?_, ?_, ?_⟩
  · unfold ToDoRepository.delete_todo
    have hfe : db.rows.filter (fun t => t.id != i) = db.rows := by
      rw [List.filter_eq_self]
      intro a ha
      have := List.find?_eq_none.mp habs a ha
      simpa [bne_iff_ne, beq_iff_eq] using this
    rw [hfe]
  · unfold api.delete_todo_handler
    rw [habs]
  · have hff : (db₂.rows.filter (fun t => t.id != j)).filter (fun t => t.id != j)
        = db₂.rows.filter (fun t => t.id != j) := by
      rw [List.filter_eq_self]
      intro a ha
      exact List.of_mem_filter (p := fun t : ToDoItem => t.id != j) ha
    unfold ToDoRepository.delete_todo
    rw [hff]
  · cases hget : ToDoRepository.get_todo_by_todo_id db₂ j with
    | none =>
      have h1 : api.delete_todo_handler j db₂
          = (.httpError 404 "To Do Not Found", db₂) := by
        unfold api.delete_todo_handler
        rw [hget]
      rw [h1]
      exact h1
    | some t =>
      have h1 : api.delete_todo_handler j db₂
          = (.ok 204 (), ToDoRepository.delete_todo db₂ j) := by
        unfold api.delete_todo_handler
        rw [hget]
      rw [h1]
      show api.delete_todo_handler j (ToDoRepository.delete_todo db₂ j)
          = (.httpError 404 "To Do Not Found", ToDoRepository.delete_todo db₂ j)
      unfold api.delete_todo_handler
      rw [get_after_delete db₂ j]

/-- C2 witness: a one-row store with id 1, deleting the absent id 7; the
twice-deleted store is the same one-row store at id 1. -/
theorem C2_delete_semantics_witness :
    ToDoRepository.get_todo_by_todo_id ⟨[⟨1, "a", true⟩], 2⟩ 7 = none ∧
    (ToDoRepository.delete_todo ⟨[⟨1, "a", true⟩], 2⟩ 7 = ⟨[⟨1, "a", true⟩], 2⟩ ∧
     api.delete_todo_handler 7 ⟨[⟨1, "a", true⟩], 2⟩
       = (.httpError 404 "To Do Not Found", ⟨[⟨1, "a", true⟩], 2⟩) ∧
     ToDoRepository.delete_todo
         (ToDoRepository.delete_todo ⟨[⟨1, "a", true⟩], 2⟩ 1) 1
       = ToDoRepository.delete_todo ⟨[⟨1, "a", true⟩], 2⟩ 1 ∧
     api.delete_todo_handler 1
         (api.delete_todo_handler 1 ⟨[⟨1, "a", true⟩], 2⟩).2
       = (.httpError 404 "To Do Not Found",
          (api.delete_todo_handler 1 ⟨[⟨1, "a", true⟩], 2⟩).2)) :=
  ⟨by decide,
   C2_delete_semantics ⟨[⟨1, "a", true⟩], 2⟩ 7 ⟨[⟨1, "a", true⟩], 2⟩ 1 (by decide)⟩

/-- C6: the sign-up response is exactly the fields id and username — its
serialized payload is precisely those two entries, so neither the
plaintext password (when distinct from the chosen username) nor the
password hash appears in any response payload. -/
theorem C6_sign_up_response_fields (req : SignUpRequest) (salt : Nat) (db : UserDB)
    (h : req.username ≠ req.password) :
    (api.sign_up_handler req salt db).2 = ⟨db.nextId, req.username⟩ ∧
    ((api.sign_up_handler req salt db).2).json
      = [("id", .num db.nextId), ("username", .str req.username)] ∧
    (((api.sign_up_handler req salt db).2).json).map Prod.fst
      = ["id", "username"] ∧
    JsonVal.str req.password
      ∉ (((api.sign_up_handler req salt db).2).json).map Prod.snd := by
  refine ⟨rfl, rfl, rfl, ?_⟩
  intro hmem
  have hor : JsonVal.str req.password = JsonVal.num db.nextId ∨
      JsonVal.str req.password = JsonVal.str req.username := by
    simpa [api.sign_up_handler, UserRepository.save_user,
      UserSchema.model_validate, UserSchema.json] using hmem
  rcases hor with hc | hc
  · exact JsonVal.noConfusion hc
  · injection hc with h2
    exact h h2.symm

/-- C6 witness: sign-up of user ana with password pw on an empty store. -/
theorem C6_sign_up_response_fields_witness :
    "ana" ≠ "pw" ∧
    ((api.sign_up_handler ⟨"ana", "pw"⟩ 3 ⟨[], 1⟩).2 = ⟨1, "ana"⟩ ∧
     ((api.sign_up_handler ⟨"ana", "pw"⟩ 3 ⟨[], 1⟩).2).json
       = [("id", .num 1), ("username", .str "ana")] ∧
     (((api.sign_up_handler ⟨"ana", "pw"⟩ 3 ⟨[], 1⟩).2).json).map Prod.fst
       = ["id", "username"] ∧
     JsonVal.str "pw"
       ∉ (((api.sign_up_handler ⟨"ana", "pw"⟩ 3 ⟨[], 1⟩).2).json).map Prod.snd) :=
  ⟨by decide, C6_sign_up_response_fields ⟨"ana", "pw"⟩ 3 ⟨[], 1⟩ (by decide)⟩

/-- C10: updating an existing todo changes only its is_done field: row by
row, ids and contents are preserved, rows with other ids keep their
is_done, only the targeted id takes the requested value, and the store
counter is untouched. Row ids are pairwise distinct (id is the primary
key). -/
theorem C10_update_frame (i : Nat) (v : Bool) (db : DB) (todo : ToDoItem)
    (hget : ToDoRepository.get_todo_by_todo_id db i = some todo)
    (hnd : (db.rows.map ToDoItem.id).Nodup) :
    List.Forall₂
      (fun told tnew =>
        tnew.id = told.id ∧ tnew.content = told.content ∧
        tnew.is_done = (if told.id = i then v else told.is_done))
      db.rows (api.update_todo_handler i v db).2.rows ∧
    (api.update_todo_handler i v db).2.nextId = db.nextId := by
  rw [update_handler_of_found i v db todo hget]
  have hid : todo.id = i := by simpa using List.find?_some hget
  have htodomem := List.mem_of_find?_eq_some hget
  refine ⟨?_, rfl⟩
  rw [List.forall₂_map_right_iff, List.forall₂_same]
  intro told hmem
  by_cases hb : told.id = i
  · have hsame : told = todo :=
      List.inj_on_of_nodup_map hnd hmem htodomem (hb.trans hid.symm)
    subst hsame
    have hbeq : (told.id == i) = true := by simpa using hb
    simp [hbeq, hb]
  · have hbeq : (told.id == i) = false := beq_eq_false_iff_ne.mpr hb
    simp [hbeq, hb]

/-- C10 witness: a two-row store, updating id 1 to done. -/
theorem C10_update_frame_witness :
    ToDoRepository.get_todo_by_todo_id ⟨[⟨1, "a", false⟩, ⟨2, "b", false⟩], 3⟩ 1
        = some ⟨1, "a", false⟩ ∧
    (([⟨1, "a", false⟩, ⟨2, "b", false⟩] : List ToDoItem).map ToDoItem.id).Nodup ∧
    (List.Forall₂
      (fun (told tnew : ToDoItem) =>
        tnew.id = told.id ∧ tnew.content = told.content ∧
        tnew.is_done = (if told.id = 1 then true else told.is_done))
      ([⟨1, "a", false⟩, ⟨2, "b", false⟩] : List ToDoItem)
      (api.update_todo_handler 1 true ⟨[⟨1, "a", false⟩, ⟨2, "b", false⟩], 3⟩).2.rows ∧
    (api.update_todo_handler 1 true ⟨[⟨1, "a", false⟩, ⟨2, "b", false⟩], 3⟩).2.nextId
      = 3) :=
  ⟨by decide, by decide,
   C10_update_frame 1 true ⟨[⟨1, "a", false⟩, ⟨2, "b", false⟩], 3⟩ ⟨1, "a", false⟩
     (by decide) (by decide)⟩

end Todos
